import Mathlib

/-!
Shallow embedding of the httphound flow-correlation and HTTP-reassembly
engine (src/http/mod.rs, src/stream/mod.rs, src/main.rs).

Byte buffers are modelled as `List Nat` (each element a byte value).  Rust
`String` values are modelled by their UTF-8 byte lists.  A Rust panic (which
aborts the process) is modelled by a dedicated `crash` outcome so that the
difference between a returned error and an abort is visible in the model.
-/

/-- Bytes of an ASCII Lean string literal, used for the Rust string constants
appearing in the source. -/
def ascii (s : String) : List Nat := s.data.map Char.toNat

/-- ASCII lower-casing of a single byte, modelling the effect of Rust
`str::to_lowercase` on the ASCII header names produced by httparse. -/
def lowerByte (b : Nat) : Nat := if 65 ≤ b && b ≤ 90 then b + 32 else b

/-- ASCII decimal digit test. -/
def isDigit (b : Nat) : Bool := 48 ≤ b && b ≤ 57

/-- RFC 7230 tchar set, as accepted by httparse for tokens (methods and header
names): digits, letters, and the punctuation `! # $ % & ' * + - . ^ _ \x60 | ~`. -/
def isTchar (b : Nat) : Bool :=
  (48 ≤ b && b ≤ 57) || (65 ≤ b && b ≤ 90) || (97 ≤ b && b ≤ 122) ||
  b == 33 || (35 ≤ b && b ≤ 39) || b == 42 || b == 43 || b == 45 || b == 46 ||
  b == 94 || b == 95 || b == 96 || b == 124 || b == 126

/-- Bytes httparse accepts inside a request URI: printable ASCII. -/
def isUriChar (b : Nat) : Bool := 33 ≤ b && b ≤ 126

/-- Bytes httparse accepts inside a header value: horizontal tab, and every
byte from space upwards except DEL (obs-text bytes 0x80..0xFF are allowed). -/
def isValueChar (b : Nat) : Bool := b == 9 || (32 ≤ b && b ≤ 255 && b != 127)

/-- Bytes httparse accepts inside a reason phrase without falling back to the
empty reason: horizontal tab and printable ASCII. -/
def isReasonChar (b : Nat) : Bool := b == 9 || (32 ≤ b && b ≤ 126)

/-- Space or horizontal tab. -/
def isSpaceTab (b : Nat) : Bool := b == 32 || b == 9

/-- Drop trailing spaces and tabs, modelling httparse trimming the trailing
whitespace of a header value. -/
def trimEnd (v : List Nat) : List Nat := (v.reverse.dropWhile isSpaceTab).reverse

/-- The error kinds of the httparse crate's `Error` enum. -/
inductive HpErr where
  | headerName
  | headerValue
  | newLine
  | status
  | token
  | tooManyHeaders
  | version
deriving DecidableEq, Repr

/-- Result of one httparse parsing step: a parsed value together with the
remaining bytes, a partial-input marker, or an error.  `complete a rest`
corresponds to httparse `Ok(Status::Complete(..))` with `rest` the bytes after
the consumed prefix. -/
inductive Hp (α : Type) where
  | complete : α → List Nat → Hp α
  | incomplete : Hp α
  | herr : HpErr → Hp α
deriving DecidableEq, Repr

/-- Sequencing of httparse steps: partial input and errors propagate. -/
def Hp.bind {α β : Type} (x : Hp α) (f : α → List Nat → Hp β) : Hp β :=
  match x with
  | .complete a rest => f a rest
  | .incomplete => .incomplete
  | .herr e => .herr e

/-- Model of httparse `skip_empty_lines`: consume any leading CRLF or LF
lines; a CR not followed by LF is a NewLine error; running out of bytes is
partial input. -/
def skip_empty_lines : List Nat → Hp Unit
  | [] => .incomplete
  | [13] => .incomplete
  | 13 :: 10 :: rest => skip_empty_lines rest
  | 13 :: _ => .herr .newLine
  | 10 :: rest => skip_empty_lines rest
  | bs => .complete () bs

/-- Model of httparse token parsing (the request method): token bytes up to a
space; a non-token, non-space byte is a Token error; end of input is partial. -/
def parse_tok (bs : List Nat) : Hp (List Nat) :=
  match bs.dropWhile isTchar with
  | [] => .incomplete
  | 32 :: rest => .complete (bs.takeWhile isTchar) rest
  | _ => .herr .token

/-- Model of httparse URI parsing: URI bytes up to a space. -/
def parse_uri (bs : List Nat) : Hp (List Nat) :=
  match bs.dropWhile isUriChar with
  | [] => .incomplete
  | 32 :: rest => .complete (bs.takeWhile isUriChar) rest
  | _ => .herr .token

/-- Match an exact byte sequence; a mismatch is a Version error (this helper
is only used for the literal HTTP version prefix). -/
def expectBytes : List Nat → List Nat → Hp Unit
  | [], rest => .complete () rest
  | _ :: _, [] => .incomplete
  | p :: ps, b :: rest => if b == p then expectBytes ps rest else .herr .version

/-- Model of httparse `parse_version`: the literal bytes HTTP/1. followed by
the minor digit 0 or 1; anything else is a Version error. -/
def parse_version (bs : List Nat) : Hp Nat :=
  (expectBytes (ascii "HTTP/1.") bs).bind fun _ rest =>
    match rest with
    | [] => .incomplete
    | 48 :: r => .complete 0 r
    | 49 :: r => .complete 1 r
    | _ => .herr .version

/-- Model of the httparse newline check: CRLF or a bare LF. -/
def expectNewline (bs : List Nat) : Hp Unit :=
  match bs with
  | [] => .incomplete
  | b :: rest =>
    if b = 13 then
      match rest with
      | [] => .incomplete
      | b2 :: rest2 => if b2 = 10 then .complete () rest2 else .herr .newLine
    else if b = 10 then .complete () rest
    else .herr .newLine

/-- Model of one httparse header line: a token name, a colon, optional
leading spaces and tabs, value bytes up to the line end (with trailing
whitespace trimmed), and the terminating newline. -/
def parseHeaderLine (bs : List Nat) : Hp (List Nat × List Nat) :=
  match bs.dropWhile isTchar with
  | [] => .incomplete
  | b :: rest =>
    if b = 58 then
      if bs.takeWhile isTchar = [] then .herr .headerName
      else
        let rest2 := rest.dropWhile isSpaceTab
        match expectNewline (rest2.dropWhile isValueChar) with
        | .complete _ rest3 => .complete (bs.takeWhile isTchar, trimEnd (rest2.takeWhile isValueChar)) rest3
        | .incomplete => .incomplete
        | .herr _ => .herr .headerValue
    else .herr .headerName

/-- Model of httparse `parse_headers_iter` with an explicit remaining slot
count `cap` (the caller hands httparse a fixed-size header array): header
lines until the blank-line terminator; one more header line than there are
slots is a TooManyHeaders error. -/
def parse_headers_iter : Nat → List Nat → Hp (List (List Nat × List Nat))
  | cap, bs =>
    match bs with
    | [] => .incomplete
    | b :: rest =>
      if b = 13 then
        match rest with
        | [] => .incomplete
        | b2 :: rest2 => if b2 = 10 then .complete [] rest2 else .herr .newLine
      else if b = 10 then .complete [] rest
      else
        match cap with
        | 0 => .herr .tooManyHeaders
        | cap2 + 1 =>
          match parseHeaderLine (b :: rest) with
          | .complete nv rest3 =>
            match parse_headers_iter cap2 rest3 with
            | .complete hs rest4 => .complete (nv :: hs) rest4
            | .incomplete => .incomplete
            | .herr e => .herr e
          | .incomplete => .incomplete
          | .herr e => .herr e

/-- Result of httparse `Request::parse` when complete. -/
structure HpReqOut where
  method : List Nat
  path : List Nat
  version : Nat
  headers : List (List Nat × List Nat)
deriving DecidableEq, Repr

/-- Model of httparse `Request::parse` with header capacity `cap`: skip empty
lines, then method, URI, version, newline, and the header block. -/
def httparse_request (cap : Nat) (buf : List Nat) : Hp HpReqOut :=
  (skip_empty_lines buf).bind fun _ b1 =>
  (parse_tok b1).bind fun m b2 =>
  (parse_uri b2).bind fun p b3 =>
  (parse_version b3).bind fun v b4 =>
  (expectNewline b4).bind fun _ b5 =>
  (parse_headers_iter cap b5).bind fun hs rest =>
  .complete { method := m, path := p, version := v, headers := hs } rest

/-- Model of httparse `parse_code`: exactly three ASCII digits. -/
def parse_code (bs : List Nat) : Hp Nat :=
  match bs with
  | [] => .incomplete
  | d1 :: r1 =>
    if !isDigit d1 then .herr .status
    else match r1 with
    | [] => .incomplete
    | d2 :: r2 =>
      if !isDigit d2 then .herr .status
      else match r2 with
      | [] => .incomplete
      | d3 :: r3 =>
        if !isDigit d3 then .herr .status
        else .complete ((d1 - 48) * 100 + (d2 - 48) * 10 + (d3 - 48)) r3

/-- Model of httparse `parse_reason`: bytes up to the line end; printable
ASCII and tab are kept, a reason containing obs-text bytes collapses to the
empty reason, any other byte is a Status error. -/
def parse_reason (bs : List Nat) : Hp (List Nat) :=
  let ok := fun b => isReasonChar b || (128 ≤ b && b ≤ 255)
  match bs.dropWhile ok with
  | [] => .incomplete
  | [13] => .incomplete
  | 13 :: 10 :: rest =>
    .complete (if (bs.takeWhile ok).all isReasonChar then bs.takeWhile ok else []) rest
  | 10 :: rest =>
    .complete (if (bs.takeWhile ok).all isReasonChar then bs.takeWhile ok else []) rest
  | _ => .herr .status

/-- Model of the byte following the status code in httparse `Response::parse`:
a space starts the reason phrase, an immediate line end leaves it empty,
anything else is a Status error. -/
def parse_reason_opt (bs : List Nat) : Hp (List Nat) :=
  match bs with
  | [] => .incomplete
  | 32 :: rest => parse_reason rest
  | [13] => .incomplete
  | 13 :: 10 :: rest => .complete [] rest
  | 10 :: rest => .complete [] rest
  | _ => .herr .status

/-- A single space; its absence after the version is a Version error. -/
def expectSpace (bs : List Nat) : Hp Unit :=
  match bs with
  | [] => .incomplete
  | 32 :: rest => .complete () rest
  | _ => .herr .version

/-- Result of httparse `Response::parse` when complete. -/
structure HpRespOut where
  version : Nat
  code : Nat
  reason : List Nat
  headers : List (List Nat × List Nat)
deriving DecidableEq, Repr

/-- Model of httparse `Response::parse` with header capacity `cap`. -/
def httparse_response (cap : Nat) (buf : List Nat) : Hp HpRespOut :=
  (skip_empty_lines buf).bind fun _ b1 =>
  (parse_version b1).bind fun v b2 =>
  (expectSpace b2).bind fun _ b3 =>
  (parse_code b3).bind fun c b4 =>
  (parse_reason_opt b4).bind fun rs b5 =>
  (parse_headers_iter cap b5).bind fun hs rest =>
  .complete { version := v, code := c, reason := rs, headers := hs } rest

/-- Continuation byte of a UTF-8 sequence. -/
def isCont (b : Nat) : Bool := 128 ≤ b && b ≤ 191

/-- UTF-8 validity of a byte list, modelling the success condition of Rust
`String::from_utf8` (overlong encodings and surrogate code points rejected). -/
def validUtf8 : List Nat → Bool
  | [] => true
  | b :: rest =>
    if b ≤ 127 then validUtf8 rest
    else if 194 ≤ b && b ≤ 223 then
      match rest with
      | c :: r => isCont c && validUtf8 r
      | [] => false
    else if b == 224 then
      match rest with
      | c1 :: c2 :: r => (160 ≤ c1 && c1 ≤ 191) && isCont c2 && validUtf8 r
      | _ => false
    else if (225 ≤ b && b ≤ 236) || b == 238 || b == 239 then
      match rest with
      | c1 :: c2 :: r => isCont c1 && isCont c2 && validUtf8 r
      | _ => false
    else if b == 237 then
      match rest with
      | c1 :: c2 :: r => (128 ≤ c1 && c1 ≤ 159) && isCont c2 && validUtf8 r
      | _ => false
    else if b == 240 then
      match rest with
      | c1 :: c2 :: c3 :: r => (144 ≤ c1 && c1 ≤ 191) && isCont c2 && isCont c3 && validUtf8 r
      | _ => false
    else if 241 ≤ b && b ≤ 243 then
      match rest with
      | c1 :: c2 :: c3 :: r => isCont c1 && isCont c2 && isCont c3 && validUtf8 r
      | _ => false
    else if b == 244 then
      match rest with
      | c1 :: c2 :: c3 :: r => (128 ≤ c1 && c1 ≤ 143) && isCont c2 && isCont c3 && validUtf8 r
      | _ => false
    else false

/-- Rust `String::from_utf8(bs).unwrap_or(sentinel)`: the bytes themselves
when they are valid UTF-8, the sentinel string otherwise. -/
def utf8OrSentinel (bs sentinel : List Nat) : List Nat :=
  if validUtf8 bs then bs else sentinel

/-- Rust `usize::from_str`: an optional leading plus sign, then one or more
decimal digits, rejecting values that overflow a 64-bit usize. -/
def parseUsize (s : List Nat) : Option Nat :=
  let core := fun (ds : List Nat) =>
    if ds = [] then none
    else if ds.all isDigit then
      let n := ds.foldl (fun acc d => acc * 10 + (d - 48)) 0
      if n < 2 ^ 64 then some n else none
    else none
  match s with
  | 43 :: rest => core rest
  | _ => core s

/-- Model of `HashMap::insert`: replace the value of an existing equal key,
otherwise add the binding.  The list order stands in for the map's iteration
order. -/
def hmInsert (m : List (List Nat × List Nat)) (k v : List Nat) : List (List Nat × List Nat) :=
  match m with
  | [] => [(k, v)]
  | (k0, v0) :: rest => if k0 = k then (k0, v) :: rest else (k0, v0) :: hmInsert rest k v

/-- Model of `HashMap::get` with an exact (case-sensitive) key. -/
def hmGet (m : List (List Nat × List Nat)) (k : List Nat) : Option (List Nat) :=
  match m with
  | [] => none
  | (k0, v0) :: rest => if k0 = k then some v0 else hmGet rest k

/-- Structured request, mirroring `Req` in src/http/mod.rs; strings are
modelled by their byte lists. -/
structure Req where
  method : List Nat
  path : List Nat
  version : List Nat
  headers : List (List Nat × List Nat)
  body : Option (List Nat)
deriving DecidableEq, Repr

/-- Structured response, mirroring `Resp` in src/http/mod.rs. -/
structure Resp where
  version : List Nat
  code : Nat
  reason : Option (List Nat)
  headers : List (List Nat × List Nat)
  body : Option (List Nat)
deriving DecidableEq, Repr

/-- The error values carried by the `Box\x3cdyn Error\x3e` results of the two
parse functions: a propagated httparse error, a string error, a UTF-8 decode
error, or an io error from the gzip decoder. -/
inductive RErr where
  | hp : HpErr → RErr
  | msg : List Nat → RErr
  | utf8 : RErr
  | io : RErr
deriving DecidableEq, Repr

/-- Outcome of calling one of the repo's parse functions: a returned `Ok`
value, a returned `Err` value, or a Rust panic aborting the process. -/
inductive RResult (α : Type) where
  | ok : α → RResult α
  | err : RErr → RResult α
  | crash : RResult α
deriving DecidableEq, Repr

/-- Decimal rendering of a number, modelling `u8::to_string` /
`u16::to_string` on the httparse version value. -/
def natBytes (n : Nat) : List Nat := (Nat.toDigits 10 n).map Char.toNat

/-- The header-map construction loop of `parse_request` (src/http/mod.rs
lines 65-70): each value goes through `String::from_utf8(..).unwrap()`, so a
non-UTF-8 value panics (`none`); otherwise the bindings are inserted in
order. -/
def buildHeadersStrict : List (List Nat × List Nat) → List (List Nat × List Nat) →
    Option (List (List Nat × List Nat))
  | [], acc => some acc
  | (n, v) :: rest, acc =>
    if validUtf8 v then buildHeadersStrict rest (hmInsert acc n v) else none

/-- The header-map construction loop of `parse_response` (src/http/mod.rs
lines 107-112): a non-UTF-8 value is returned as an error through the
question-mark operator. -/
def buildHeadersTry : List (List Nat × List Nat) → List (List Nat × List Nat) →
    Except RErr (List (List Nat × List Nat))
  | [], acc => .ok acc
  | (n, v) :: rest, acc =>
    if validUtf8 v then buildHeadersTry rest (hmInsert acc n v) else .error .utf8

/-- Model of `get_content_length` (src/http/mod.rs lines 136-144): scan the
header map, and on the first key equal to content-length after ASCII
lower-casing, return `usize::from_str(value).ok()` (so a malformed value on
that key yields `none` immediately). -/
def get_content_length (headers : List (List Nat × List Nat)) : Option Nat :=
  match headers with
  | [] => none
  | (k, v) :: rest =>
    if k.map lowerByte = ascii "content-length" then parseUsize v
    else get_content_length rest

/-- Modelled from the spec: `unzip_content` (src/http/mod.rs lines 146-153)
feeds the bytes to flate2's `MultiGzDecoder`, whose DEFLATE implementation is
external to this repository.  The model is exact on the empty stream (the
multi-member decoder yields zero bytes) and conservatively reports a
decompression failure for every non-empty stream; no theorem in this file
depends on the behaviour for a non-empty gzip stream. -/
def unzip_content (buf : List Nat) : Except Unit (List Nat) :=
  if buf = [] then .ok [] else .error ()

/-- Model of `parse_request` (src/http/mod.rs lines 48-88).  httparse errors
are returned through the question-mark operator; partial input is returned as
the string error Partial request; a non-UTF-8 header value panics; a body is
attached only for a positive Content-Length, panicking when fewer bytes than
declared remain, and substituting the sentinel Body encoding error for a
non-UTF-8 body. -/
def parse_request (buf : List Nat) : RResult Req :=
  match httparse_request 16 buf with
  | .herr e => .err (.hp e)
  | .incomplete => .err (.msg (ascii "Partial request"))
  | .complete out rest =>
    match buildHeadersStrict out.headers [] with
    | none => .crash
    | some hs =>
      let base : Req :=
        { method := out.method, path := out.path, version := natBytes out.version,
          headers := hs, body := none }
      match get_content_length hs with
      | some cl =>
        if cl > 0 then
          if cl ≤ rest.length then
            .ok { base with body := some (utf8OrSentinel (rest.take cl) (ascii "Body encoding error")) }
          else .crash
        else .ok base
      | none => .ok base

/-- Model of `parse_response` (src/http/mod.rs lines 90-134).  The httparse
result is unwrapped, so an httparse error panics; partial input is returned
as the string error Partial response; a non-UTF-8 header value is returned as
an error; whenever Content-Length is present (even zero) that many bytes are
split off (panicking when fewer remain) and dispatched on the exact-case
Content-Encoding key: gzip decompression, an unknown-encoding error, or a
plain decode with the sentinel Encoding error. -/
def parse_response (buf : List Nat) : RResult Resp :=
  match httparse_response 16 buf with
  | .herr _ => .crash
  | .incomplete => .err (.msg (ascii "Partial response"))
  | .complete out rest =>
    match buildHeadersTry out.headers [] with
    | .error e => .err e
    | .ok hs =>
      let base : Resp :=
        { version := natBytes out.version, code := out.code, reason := some out.reason,
          headers := hs, body := none }
      match get_content_length hs with
      | none => .ok base
      | some cl =>
        if cl ≤ rest.length then
          match hmGet hs (ascii "Content-Encoding") with
          | some enc =>
            if enc = ascii "gzip" then
              match unzip_content (rest.take cl) with
              | .ok s => .ok { base with body := some s }
              | .error _ => .err .io
            else .err (.msg (ascii "Unknown encoding " ++ enc))
          | none => .ok { base with body := some (utf8OrSentinel (rest.take cl) (ascii "Encoding error")) }
        else .crash

/-- IP address, v4 or v6, mirroring `std::net::IpAddr`. -/
inductive IpAddr where
  | v4 : Nat → Nat → Nat → Nat → IpAddr
  | v6 : List Nat → IpAddr
deriving DecidableEq, Repr

/-- Network peer, mirroring `Endpoint` in src/stream/mod.rs: an address and a
port; equality is componentwise. -/
structure Endpoint where
  address : IpAddr
  port : Nat
deriving DecidableEq, Repr

/-- Decoded packet event, mirroring `EnrichedPacket` in src/stream/mod.rs
(the raw frame is kept as its payload byte list). -/
structure EnrichedPacket where
  ts : Int
  data : List Nat
  source : Endpoint
  dest : Endpoint
  fin : Bool
deriving DecidableEq, Repr

/-- Per-flow state, mirroring `HttpStream` in src/stream/mod.rs (including
the `souce_fin` field name of the source). -/
structure HttpStream where
  id : Int
  source : Endpoint
  dest : Endpoint
  packets : List EnrichedPacket
  souce_fin : Bool
  dest_fin : Bool
  request : Option Req
  response : Option Resp
deriving DecidableEq, Repr

/-- Model of `HttpStream::new`. -/
def HttpStream.new (id : Int) (source dest : Endpoint) : HttpStream :=
  { id := id, source := source, dest := dest, packets := [],
    souce_fin := false, dest_fin := false, request := none, response := none }

/-- Model of `HttpStream::append_request_packet`: a FIN packet sets the
initiator-side flag, and the packet is appended. -/
def HttpStream.append_request_packet (s : HttpStream) (p : EnrichedPacket) : HttpStream :=
  let s1 := if p.fin then { s with souce_fin := true } else s
  { s1 with packets := s1.packets ++ [p] }

/-- Model of `HttpStream::append_response_packet`: a FIN packet sets the
responder-side flag, and the packet is appended. -/
def HttpStream.append_response_packet (s : HttpStream) (p : EnrichedPacket) : HttpStream :=
  let s1 := if p.fin then { s with dest_fin := true } else s
  { s1 with packets := s1.packets ++ [p] }

/-- Model of `HttpStream::is_complete`: both termination flags set. -/
def HttpStream.is_complete (s : HttpStream) : Bool := s.souce_fin && s.dest_fin

/-- The packet routing of `Store::append_packet` (src/stream/mod.rs lines
278-282): a packet whose source equals the flow's initiator endpoint goes to
the request side, every other packet to the response side. -/
def HttpStream.apply_packet (s : HttpStream) (p : EnrichedPacket) : HttpStream :=
  if s.source = p.source then s.append_request_packet p else s.append_response_packet p

/-- Two's-complement wrap-around of Rust `i32` arithmetic (release-profile
overflow semantics), used by the `next_id += 1` update. -/
def wrap32 (n : Int) : Int := (n + 2147483648) % 4294967296 - 2147483648

/-- Flow store, mirroring `Store` in src/stream/mod.rs; the id-to-stream
HashMap is modelled as an association list. -/
structure Store where
  streams : List (Int × HttpStream)
  next_id : Int
deriving DecidableEq, Repr

/-- Model of `Store::new`. -/
def Store.new : Store := { streams := [], next_id := 0 }

/-- The iteration body of `Store::lookup_stream_id`: the first stream whose
endpoint pair matches the query in either orientation. -/
def lookupLoop : List (Int × HttpStream) → Endpoint → Endpoint → Option Int
  | [], _, _ => none
  | (id, s) :: rest, source, dest =>
    if (s.source = source ∧ s.dest = dest) ∨ (s.source = dest ∧ s.dest = source) then some id
    else lookupLoop rest source dest

/-- Model of `Store::lookup_stream_id` (src/stream/mod.rs lines 249-259). -/
def Store.lookup_stream_id (st : Store) (source dest : Endpoint) : Option Int :=
  lookupLoop st.streams source dest

/-- HashMap insert keyed by flow id, replacing an existing binding. -/
def storeInsert : List (Int × HttpStream) → Int → HttpStream → List (Int × HttpStream)
  | [], k, v => [(k, v)]
  | (k0, v0) :: rest, k, v =>
    if k0 = k then (k0, v) :: rest else (k0, v0) :: storeInsert rest k v

/-- Model of `Store::add_stream`: insert the stream under its id. -/
def Store.add_stream (st : Store) (s : HttpStream) : Store :=
  { st with streams := storeInsert st.streams s.id s }

/-- Model of `Store::get_next_id` (src/stream/mod.rs lines 265-271): return
the current counter and advance it by one in `i32` arithmetic. -/
def Store.get_next_id (st : Store) : Int × Store :=
  (st.next_id, { st with next_id := wrap32 (st.next_id + 1) })

/-- The streams HashMap lookup-and-mutate of `Store::append_packet`. -/
def updateStream : List (Int × HttpStream) → Int → EnrichedPacket →
    List (Int × HttpStream)
  | [], _, _ => []
  | (k0, s0) :: rest, k, p =>
    if k0 = k then (k0, s0.apply_packet p) :: rest else (k0, s0) :: updateStream rest k p

/-- The stream found by id inside `Store::append_packet`. -/
def findStream : List (Int × HttpStream) → Int → Option HttpStream
  | [], _ => none
  | (k0, s0) :: rest, k => if k0 = k then some s0 else findStream rest k

/-- Model of `Store::append_packet` (src/stream/mod.rs lines 275-291):
correlate the packet, route it to the request or response side of its flow,
and report the flow id together with the completion status; the updated store
is returned alongside. -/
def Store.append_packet (st : Store) (p : EnrichedPacket) :
    Option ((Int × Bool) × Store) :=
  match st.lookup_stream_id p.source p.dest with
  | none => none
  | some id =>
    match findStream st.streams id with
    | none => none
    | some s =>
      let s2 := s.apply_packet p
      some ((id, s2.is_complete), { st with streams := updateStream st.streams id p })

theorem takeWhile_append_of_all {p : Nat → Bool} (xs ys : List Nat) (h : xs.all p) :
    (xs ++ ys).takeWhile p = xs ++ ys.takeWhile p := by
  induction xs with
  | nil => simp
  | cons x xs ih =>
    simp only [List.all_cons, Bool.and_eq_true] at h
    simp [List.takeWhile_cons, h.1, ih h.2]

theorem dropWhile_append_of_all {p : Nat → Bool} (xs ys : List Nat) (h : xs.all p) :
    (xs ++ ys).dropWhile p = ys.dropWhile p := by
  induction xs with
  | nil => simp
  | cons x xs ih =>
    simp only [List.all_cons, Bool.and_eq_true] at h
    simp [List.dropWhile_cons, h.1, ih h.2]

theorem dropWhile_value_line (v tail : List Nat) (hv : v.all isValueChar) :
    ((v ++ 13 :: 10 :: tail).dropWhile isSpaceTab).dropWhile isValueChar = 13 :: 10 :: tail := by
  induction v with
  | nil => simp [List.dropWhile_cons, isSpaceTab, isValueChar]
  | cons c v ih =>
    simp only [List.all_cons, Bool.and_eq_true] at hv
    by_cases hs : isSpaceTab c = true
    · simpa [List.dropWhile_cons, hs] using ih hv.2
    · have h1 : List.dropWhile isSpaceTab (c :: (v ++ 13 :: 10 :: tail))
          = c :: (v ++ 13 :: 10 :: tail) := by
        simp [List.dropWhile_cons, hs]
      rw [List.cons_append, h1, List.dropWhile_cons, if_pos hv.1,
        dropWhile_append_of_all _ _ hv.2]
      simp [List.dropWhile_cons, isValueChar]

theorem parseHeaderLine_render (n v tail : List Nat)
    (hne : n ≠ []) (hnt : n.all isTchar) (hv : v.all isValueChar) :
    ∃ nv, parseHeaderLine (n ++ 58 :: 32 :: (v ++ 13 :: 10 :: tail)) = .complete nv tail := by
  have hdw : (n ++ 58 :: 32 :: (v ++ 13 :: 10 :: tail)).dropWhile isTchar
      = 58 :: 32 :: (v ++ 13 :: 10 :: tail) := by
    rw [dropWhile_append_of_all _ _ hnt]
    simp [List.dropWhile_cons, isTchar]
  have htw : (n ++ 58 :: 32 :: (v ++ 13 :: 10 :: tail)).takeWhile isTchar = n := by
    rw [takeWhile_append_of_all _ _ hnt]
    simp [List.takeWhile_cons, isTchar]
  have hst : List.dropWhile isSpaceTab (32 :: (v ++ 13 :: 10 :: tail))
      = List.dropWhile isSpaceTab (v ++ 13 :: 10 :: tail) := by
    simp [List.dropWhile_cons, isSpaceTab]
  have hval := dropWhile_value_line v tail hv
  simp only [parseHeaderLine, hdw, htw, hst, hval, hne, expectNewline]
  simp

/-- Byte rendering of one header line: name, colon, one space, value, CRLF. -/
def renderHeader (nv : List Nat × List Nat) : List Nat := nv.1 ++ 58 :: 32 :: (nv.2 ++ [13, 10])

/-- Byte rendering of a header block (without the blank-line terminator). -/
def renderHeaders (hs : List (List Nat × List Nat)) : List Nat := (hs.map renderHeader).flatten

theorem parse_headers_iter_zero (b : Nat) (rest : List Nat) :
    parse_headers_iter 0 (b :: rest) =
      if b = 13 then
        match rest with
        | [] => .incomplete
        | b2 :: rest2 => if b2 = 10 then .complete [] rest2 else .herr .newLine
      else if b = 10 then .complete [] rest
      else .herr .tooManyHeaders := rfl

theorem parse_headers_iter_succ (cap2 b : Nat) (rest : List Nat) :
    parse_headers_iter (cap2 + 1) (b :: rest) =
      if b = 13 then
        match rest with
        | [] => .incomplete
        | b2 :: rest2 => if b2 = 10 then .complete [] rest2 else .herr .newLine
      else if b = 10 then .complete [] rest
      else
        match parseHeaderLine (b :: rest) with
        | .complete nv rest3 =>
          match parse_headers_iter cap2 rest3 with
          | .complete hs rest4 => .complete (nv :: hs) rest4
          | .incomplete => .incomplete
          | .herr e => .herr e
        | .incomplete => .incomplete
        | .herr e => .herr e := rfl

/-- A header block with more rendered header lines than remaining slots makes
the httparse header loop fail with TooManyHeaders, whatever follows it. -/
theorem parse_headers_iter_overflow :
    ∀ (hs : List (List Nat × List Nat)) (cap : Nat) (tail : List Nat),
    (∀ nv ∈ hs, nv.1 ≠ [] ∧ nv.1.all isTchar ∧ nv.2.all isValueChar) →
    cap < hs.length →
    parse_headers_iter cap (renderHeaders hs ++ tail) = .herr .tooManyHeaders := by
  intro hs
  induction hs with
  | nil => intro cap tail _ h; simp at h
  | cons nv hs ih =>
    intro cap tail hgood hlt
    obtain ⟨hne, hnt, hv⟩ := hgood nv (List.mem_cons_self _ _)
    obtain ⟨b, nrest, hb⟩ := List.exists_cons_of_ne_nil hne
    have hbt : isTchar b = true := by
      rw [hb] at hnt
      simp only [List.all_cons, Bool.and_eq_true] at hnt
      exact hnt.1
    have hb13 : ¬b = 13 := by intro h; rw [h] at hbt; simp [isTchar] at hbt
    have hb10 : ¬b = 10 := by intro h; rw [h] at hbt; simp [isTchar] at hbt
    have hbuf : renderHeaders (nv :: hs) ++ tail
        = b :: (nrest ++ 58 :: 32 :: (nv.2 ++ 13 :: 10 :: (renderHeaders hs ++ tail))) := by
      simp [renderHeaders, renderHeader, hb, List.append_assoc]
    rw [hbuf]
    obtain ⟨nv2, hline⟩ :=
      parseHeaderLine_render nv.1 nv.2 (renderHeaders hs ++ tail) hne hnt hv
    rw [hb] at hline
    simp only [List.cons_append] at hline
    cases cap with
    | zero => simp [parse_headers_iter_zero, hb13, hb10]
    | succ cap2 =>
      have hrec := ih cap2 tail (fun q hq => hgood q (List.mem_cons_of_mem _ hq))
        (Nat.lt_of_succ_lt_succ (by simpa using hlt))
      rw [parse_headers_iter_succ]
      simp only [hb13, hb10, if_false, hline, hrec]

/-- Consuming a concrete request line leaves httparse at the header loop. -/
theorem httparse_request_reqline (cap : Nat) (rest : List Nat) :
    httparse_request cap (ascii "GET / HTTP/1.1\r\n" ++ rest) =
      (parse_headers_iter cap rest).bind fun hs r =>
        .complete { method := ascii "GET", path := ascii "/", version := 1, headers := hs } r := rfl

/-- Consuming a concrete status line leaves httparse at the header loop. -/
theorem httparse_response_statusline (cap : Nat) (rest : List Nat) :
    httparse_response cap (ascii "HTTP/1.1 200 OK\r\n" ++ rest) =
      (parse_headers_iter cap rest).bind fun hs r =>
        .complete { version := 1, code := 200, reason := ascii "OK", headers := hs } r := rfl

/-- A header map all of whose content-length keys carry an unparsable value
yields no content length. -/
theorem get_content_length_none (hs : List (List Nat × List Nat))
    (h : ∀ kv ∈ hs, kv.1.map lowerByte = ascii "content-length" → parseUsize kv.2 = none) :
    get_content_length hs = none := by
  induction hs with
  | nil => rfl
  | cons kv rest ih =>
    obtain ⟨k, v⟩ := kv
    by_cases hk : k.map lowerByte = ascii "content-length"
    · simpa [get_content_length, hk] using h (k, v) (List.mem_cons_self _ _) hk
    · simpa [get_content_length, hk] using ih fun q hq => h q (List.mem_cons_of_mem _ hq)

theorem apply_packet_souce_fin (s : HttpStream) (p : EnrichedPacket) (h : p.fin = false) :
    (s.apply_packet p).souce_fin = s.souce_fin := by
  simp [HttpStream.apply_packet, HttpStream.append_request_packet,
    HttpStream.append_response_packet, h]

theorem apply_packet_dest_fin (s : HttpStream) (p : EnrichedPacket) (h : p.fin = false) :
    (s.apply_packet p).dest_fin = s.dest_fin := by
  simp [HttpStream.apply_packet, HttpStream.append_request_packet,
    HttpStream.append_response_packet, h]

/-- Non-terminating packets leave both termination flags unchanged. -/
theorem foldl_apply_packet_fins (ps : List EnrichedPacket) (s : HttpStream)
    (h : ∀ p ∈ ps, p.fin = false) :
    (ps.foldl HttpStream.apply_packet s).souce_fin = s.souce_fin ∧
    (ps.foldl HttpStream.apply_packet s).dest_fin = s.dest_fin := by
  induction ps generalizing s with
  | nil => exact ⟨rfl, rfl⟩
  | cons p rest ih =>
    have hp := h p (List.mem_cons_self _ _)
    obtain ⟨h1, h2⟩ := ih (s.apply_packet p) fun q hq => h q (List.mem_cons_of_mem _ hq)
    simp only [List.foldl_cons]
    rw [h1, h2, apply_packet_souce_fin s p hp, apply_packet_dest_fin s p hp]
    exact ⟨rfl, rfl⟩

theorem wrap32_step (n : Int) : wrap32 (wrap32 n + 1) = wrap32 (n + 1) := by
  unfold wrap32
  omega

/-- The store reached after some number of id draws from a fresh store. -/
def storeAfter : Nat → Store
  | 0 => Store.new
  | k + 1 => ((storeAfter k).get_next_id).2

/-- The id returned by the next `get_next_id` call after `k` earlier calls. -/
def nthId (k : Nat) : Int := ((storeAfter k).get_next_id).1

theorem storeAfter_next_id (k : Nat) : (storeAfter k).next_id = wrap32 k := by
  induction k with
  | zero =>
    show (0 : Int) = wrap32 0
    decide
  | succ k ih =>
    show wrap32 ((storeAfter k).next_id + 1) = wrap32 (k + 1 : Nat)
    rw [ih, wrap32_step]
    norm_num

theorem nthId_eq (k : Nat) : nthId k = wrap32 k := by
  show (storeAfter k).next_id = wrap32 k
  exact storeAfter_next_id k

/-- The request buffer of the round-trip test in the spec. -/
def c4buf : List Nat := ascii "GET /foo HTTP/1.1\r\nHost: x\r\nContent-Length: 5\r\n\r\nhello"

/-- Claim C1: the spec states that parse_request and parse_response always
return a classified result and never abort the process.  Evaluating the code
shows three inputs on which it panics instead (modelled by the crash
outcome): a request whose declared Content-Length exceeds the available bytes
(the split_to call), a response with a malformed status line (unwrap of the
httparse result), and a request with a non-UTF-8 header value (unwrap of the
String conversion). -/
theorem parse_abort_on_malformed_inputs :
    parse_request (ascii "GET / HTTP/1.1\r\nContent-Length: 5\r\n\r\nab") = .crash ∧
    parse_response (ascii "XYZ\r\n\r\n") = .crash ∧
    parse_request (ascii "GET / HTTP/1.1\r\nX-Bin: " ++ [255] ++ ascii "\r\n\r\n") = .crash :=
  ⟨by decide, by decide, by decide⟩

/-- Claim C2 counterexample: the Content-Encoding lookup is not
case-insensitive.  With the header name spelled content-encoding the response
parses with a plainly decoded body, while the exact spelling
Content-Encoding dispatches to the unknown-encoding error, so the two
capitalizations select different dispatches. -/
theorem content_encoding_lookup_not_case_insensitive :
    parse_response (ascii "HTTP/1.1 200 OK\r\ncontent-encoding: br\r\nContent-Length: 1\r\n\r\nx") =
      .ok { version := ascii "1", code := 200, reason := some (ascii "OK"),
            headers := [(ascii "content-encoding", ascii "br"),
                        (ascii "Content-Length", ascii "1")],
            body := some (ascii "x") } ∧
    parse_response (ascii "HTTP/1.1 200 OK\r\nContent-Encoding: br\r\nContent-Length: 1\r\n\r\nx") =
      .err (.msg (ascii "Unknown encoding br")) :=
  ⟨by decide, by decide⟩

/-- Claim C2 amended: the Content-Encoding lookup is an exact-key
(case-sensitive) HashMap get.  Whenever a body is framed by Content-Length
and the header map has no key spelled exactly Content-Encoding, the body is
decoded plainly, whatever other capitalizations of the header are present. -/
theorem content_encoding_dispatch_exact_key
    (buf : List Nat) (out : HpRespOut) (rest : List Nat)
    (hs : List (List Nat × List Nat)) (n : Nat)
    (h1 : httparse_response 16 buf = .complete out rest)
    (h2 : buildHeadersTry out.headers [] = .ok hs)
    (h3 : get_content_length hs = some n)
    (h4 : n ≤ rest.length)
    (h5 : hmGet hs (ascii "Content-Encoding") = none) :
    parse_response buf =
      .ok { version := natBytes out.version, code := out.code, reason := some out.reason,
            headers := hs,
            body := some (utf8OrSentinel (rest.take n) (ascii "Encoding error")) } := by
  simp [parse_response, h1, h2, h3, h4, h5]

/-- Witness for C2 amended: a lower-case content-encoding gzip header is
invisible to the exact-key lookup, so the body is decoded plainly rather than
dispatched to the gzip decoder. -/
theorem content_encoding_dispatch_exact_key_witness :
    parse_response
        (ascii "HTTP/1.1 200 OK\r\ncontent-encoding: gzip\r\nContent-Length: 2\r\n\r\nhi") =
      .ok { version := ascii "1", code := 200, reason := some (ascii "OK"),
            headers := [(ascii "content-encoding", ascii "gzip"),
                        (ascii "Content-Length", ascii "2")],
            body := some (ascii "hi") } :=
  content_encoding_dispatch_exact_key
    (ascii "HTTP/1.1 200 OK\r\ncontent-encoding: gzip\r\nContent-Length: 2\r\n\r\nhi")
    { version := 1, code := 200, reason := ascii "OK",
      headers := [(ascii "content-encoding", ascii "gzip"), (ascii "Content-Length", ascii "2")] }
    (ascii "hi")
    [(ascii "content-encoding", ascii "gzip"), (ascii "Content-Length", ascii "2")]
    2 (by decide) (by rfl) (by decide) (by decide) (by decide)

/-- Claim C3 counterexample: a response whose Content-Length is 0 does not
leave the body slot unset as claimed; parse_response sets it to the empty
string, because the greater-than-zero guard of parse_request is absent. -/
theorem response_zero_content_length_sets_body :
    parse_response (ascii "HTTP/1.1 200 OK\r\nContent-Length: 0\r\n\r\n") =
      .ok { version := ascii "1", code := 200, reason := some (ascii "OK"),
            headers := [(ascii "Content-Length", ascii "0")], body := some [] } ∧
    some ([] : List Nat) ≠ none :=
  ⟨by decide, by decide⟩

/-- Claim C3 amended: parse_request leaves the body unset for an absent or
zero Content-Length, but parse_response leaves it unset only when the header
is absent; a present Content-Length of 0 still sets the body, to the empty
string when no exact-case Content-Encoding key is present. -/
theorem body_framing_zero_length
    (bufQ : List Nat) (outQ : HpReqOut) (restQ : List Nat) (hsQ : List (List Nat × List Nat))
    (hQ1 : httparse_request 16 bufQ = .complete outQ restQ)
    (hQ2 : buildHeadersStrict outQ.headers [] = some hsQ)
    (hQ3 : get_content_length hsQ = some 0)
    (bufA : List Nat) (outA : HpRespOut) (restA : List Nat) (hsA : List (List Nat × List Nat))
    (hA1 : httparse_response 16 bufA = .complete outA restA)
    (hA2 : buildHeadersTry outA.headers [] = .ok hsA)
    (hA3 : get_content_length hsA = none)
    (bufB : List Nat) (outB : HpRespOut) (restB : List Nat) (hsB : List (List Nat × List Nat))
    (hB1 : httparse_response 16 bufB = .complete outB restB)
    (hB2 : buildHeadersTry outB.headers [] = .ok hsB)
    (hB3 : get_content_length hsB = some 0)
    (hB4 : hmGet hsB (ascii "Content-Encoding") = none) :
    parse_request bufQ =
      .ok { method := outQ.method, path := outQ.path, version := natBytes outQ.version,
            headers := hsQ, body := none } ∧
    parse_response bufA =
      .ok { version := natBytes outA.version, code := outA.code, reason := some outA.reason,
            headers := hsA, body := none } ∧
    parse_response bufB =
      .ok { version := natBytes outB.version, code := outB.code, reason := some outB.reason,
            headers := hsB, body := some [] } := by
  refine ⟨?_, ?_, ?_⟩
  · simp [parse_request, hQ1, hQ2, hQ3]
  · simp [parse_response, hA1, hA2, hA3]
  · have hemp : utf8OrSentinel [] (ascii "Encoding error") = [] := rfl
    simp [parse_response, hB1, hB2, hB3, hB4, hemp]

/-- Witness for C3 amended, at three concrete buffers: a request with
Content-Length 0 (body unset), a response without Content-Length (body
unset), and a response with Content-Length 0 (body set to the empty
string). -/
theorem body_framing_zero_length_witness :
    parse_request (ascii "GET / HTTP/1.1\r\nContent-Length: 0\r\n\r\n") =
      .ok { method := ascii "GET", path := ascii "/", version := ascii "1",
            headers := [(ascii "Content-Length", ascii "0")], body := none } ∧
    parse_response (ascii "HTTP/1.1 200 OK\r\nHost: x\r\n\r\n") =
      .ok { version := ascii "1", code := 200, reason := some (ascii "OK"),
            headers := [(ascii "Host", ascii "x")], body := none } ∧
    parse_response (ascii "HTTP/1.1 204 NC\r\nContent-Length: 0\r\n\r\n") =
      .ok { version := ascii "1", code := 204, reason := some (ascii "NC"),
            headers := [(ascii "Content-Length", ascii "0")], body := some [] } :=
  body_framing_zero_length
    (ascii "GET / HTTP/1.1\r\nContent-Length: 0\r\n\r\n")
    { method := ascii "GET", path := ascii "/", version := 1,
      headers := [(ascii "Content-Length", ascii "0")] }
    [] [(ascii "Content-Length", ascii "0")]
    (by decide) (by rfl) (by decide)
    (ascii "HTTP/1.1 200 OK\r\nHost: x\r\n\r\n")
    { version := 1, code := 200, reason := ascii "OK", headers := [(ascii "Host", ascii "x")] }
    [] [(ascii "Host", ascii "x")]
    (by decide) (by rfl) (by decide)
    (ascii "HTTP/1.1 204 NC\r\nContent-Length: 0\r\n\r\n")
    { version := 1, code := 204, reason := ascii "NC",
      headers := [(ascii "Content-Length", ascii "0")] }
    [] [(ascii "Content-Length", ascii "0")]
    (by decide) (by rfl) (by decide) (by decide)

/-- Claim C4 counterexample: the round-trip buffer parses as claimed except
that the version field holds only the minor digit 1 (the httparse version
value rendered with to_string), not the claimed 1.1. -/
theorem request_roundtrip_version_minor :
    parse_request c4buf =
      .ok { method := ascii "GET", path := ascii "/foo", version := ascii "1",
            headers := [(ascii "Host", ascii "x"), (ascii "Content-Length", ascii "5")],
            body := some (ascii "hello") } ∧
    ascii "1" ≠ ascii "1.1" :=
  ⟨by decide, by decide⟩

/-- Claim C4 amended: parsing the round-trip buffer succeeds with method GET,
path /foo, version 1 (the stored minor digit), the two headers, and body
hello. -/
theorem request_roundtrip :
    parse_request c4buf =
      .ok { method := ascii "GET", path := ascii "/foo", version := ascii "1",
            headers := [(ascii "Host", ascii "x"), (ascii "Content-Length", ascii "5")],
            body := some (ascii "hello") } := by
  decide

/-- Claim C5: a flow is complete iff both termination flags are set, in
either order.  Non-terminating packets routed to either side never change
completion; with only one FIN flag set the flow stays incomplete through any
such packets and becomes complete exactly when the packet bearing the other
side FIN is appended, symmetrically in the two orders. -/
theorem completion_requires_both_fins
    (s : HttpStream) (ps : List EnrichedPacket)
    (hps : ∀ p ∈ ps, p.fin = false) (q : EnrichedPacket) (hq : q.fin = true) :
    (s.is_complete = (s.souce_fin && s.dest_fin)) ∧
    ((ps.foldl HttpStream.apply_packet s).is_complete = s.is_complete) ∧
    (s.souce_fin = true → s.dest_fin = false →
      (ps.foldl HttpStream.apply_packet s).is_complete = false ∧
      ((ps.foldl HttpStream.apply_packet s).append_response_packet q).is_complete = true) ∧
    (s.dest_fin = true → s.souce_fin = false →
      (ps.foldl HttpStream.apply_packet s).is_complete = false ∧
      ((ps.foldl HttpStream.apply_packet s).append_request_packet q).is_complete = true) := by
  obtain ⟨h1, h2⟩ := foldl_apply_packet_fins ps s hps
  refine ⟨rfl, ?_, ?_, ?_⟩
  · simp [HttpStream.is_complete, h1, h2]
  · intro hsf hdf
    constructor
    · simp [HttpStream.is_complete, h1, h2, hdf]
    · simp [HttpStream.append_response_packet, hq, HttpStream.is_complete, h1, h2, hsf]
  · intro hdf hsf
    constructor
    · simp [HttpStream.is_complete, h1, h2, hsf]
    · simp [HttpStream.append_request_packet, hq, HttpStream.is_complete, h1, h2, hdf]

/-- A sample initiator endpoint. -/
def epA : Endpoint := { address := .v4 10 0 0 1, port := 80 }

/-- A sample responder endpoint. -/
def epB : Endpoint := { address := .v4 10 0 0 2, port := 443 }

/-- A non-terminating responder packet. -/
def pktPlain : EnrichedPacket := { ts := 0, data := [], source := epB, dest := epA, fin := false }

/-- A terminating responder packet. -/
def pktFin : EnrichedPacket := { ts := 1, data := [], source := epB, dest := epA, fin := true }

/-- A flow that has seen only the initiator FIN. -/
def halfClosed : HttpStream :=
  { id := 0, source := epA, dest := epB, packets := [], souce_fin := true, dest_fin := false,
    request := none, response := none }

/-- Witness for C5 at a half-closed flow, one non-terminating packet and one
responder FIN packet. -/
theorem completion_requires_both_fins_witness :
    (halfClosed.is_complete = (halfClosed.souce_fin && halfClosed.dest_fin)) ∧
    (([pktPlain].foldl HttpStream.apply_packet halfClosed).is_complete = halfClosed.is_complete) ∧
    (halfClosed.souce_fin = true → halfClosed.dest_fin = false →
      (([pktPlain].foldl HttpStream.apply_packet halfClosed).is_complete = false) ∧
      ((([pktPlain].foldl HttpStream.apply_packet halfClosed).append_response_packet pktFin).is_complete = true)) ∧
    (halfClosed.dest_fin = true → halfClosed.souce_fin = false →
      (([pktPlain].foldl HttpStream.apply_packet halfClosed).is_complete = false) ∧
      ((([pktPlain].foldl HttpStream.apply_packet halfClosed).append_request_packet pktFin).is_complete = true)) :=
  completion_requires_both_fins halfClosed [pktPlain] (by decide) pktFin (by decide)

/-- Claim C6: flow correlation is direction-agnostic.  Looking up an endpoint
pair in either orientation gives the same result on every store, so a packet
in the reverse direction finds the same flow id instead of creating a new
flow. -/
theorem lookup_stream_id_symm (st : Store) (a b : Endpoint) :
    st.lookup_stream_id a b = st.lookup_stream_id b a := by
  unfold Store.lookup_stream_id
  induction st.streams with
  | nil => rfl
  | cons kv rest ih =>
    obtain ⟨id, s⟩ := kv
    simp only [lookupLoop]
    by_cases h : (s.source = a ∧ s.dest = b) ∨ (s.source = b ∧ s.dest = a)
    · rw [if_pos h, if_pos (Or.symm h)]
    · rw [if_neg h, if_neg (fun hc => h (Or.symm hc))]
      exact ih

/-- Claim C8 counterexample: the id counter is a 32-bit integer, so the id
returned by the 2147483649th call is the wrapped value -2147483648, smaller
than the very first id, and after 4294967296 calls the first id is assigned
again. -/
theorem get_next_id_wraps :
    nthId 2147483648 < nthId 0 ∧ nthId 4294967296 = nthId 0 := by
  simp only [nthId_eq]
  constructor <;> decide

/-- Claim C8 amended: within the first 2^31 calls on a fresh store, ids are
strictly increasing (hence never reassigned); beyond that the i32 counter
wraps. -/
theorem get_next_id_strictly_increasing (m n : Nat) (hmn : m < n) (hn : n < 2147483648) :
    nthId m < nthId n := by
  simp only [nthId_eq]
  unfold wrap32
  omega

/-- Witness for C8 amended: the second id is greater than the first. -/
theorem get_next_id_strictly_increasing_witness : nthId 0 < nthId 1 :=
  get_next_id_strictly_increasing 0 1 (by decide) (by decide)

/-- A response buffer carrying seventeen headers. -/
def c9buf : List Nat :=
  ascii "HTTP/1.1 200 OK\r\nA1: x\r\nA2: x\r\nA3: x\r\nA4: x\r\nA5: x\r\nA6: x\r\nA7: x\r\nA8: x\r\nA9: x\r\nB1: x\r\nB2: x\r\nB3: x\r\nB4: x\r\nB5: x\r\nB6: x\r\nB7: x\r\nB8: x\r\n\r\n"

/-- Claim C9 counterexample: on a response with seventeen headers the parse
does not report an error as claimed; the unwrap of the TooManyHeaders result
panics and aborts the process (the crash outcome). -/
theorem seventeen_headers_response_aborts : parse_response c9buf = .crash := by decide

/-- Claim C9 amended: any message with more than sixteen rendered headers
overflows the fixed 16-slot header array; parse_request returns the
propagated TooManyHeaders error, while parse_response panics on it. -/
theorem header_capacity_sixteen
    (hs : List (List Nat × List Nat)) (tail : List Nat)
    (hgood : ∀ nv ∈ hs, nv.1 ≠ [] ∧ nv.1.all isTchar ∧ nv.2.all isValueChar)
    (hlen : 16 < hs.length) :
    parse_request (ascii "GET / HTTP/1.1\r\n" ++ (renderHeaders hs ++ tail)) =
      .err (.hp .tooManyHeaders) ∧
    parse_response (ascii "HTTP/1.1 200 OK\r\n" ++ (renderHeaders hs ++ tail)) = .crash := by
  have hover := parse_headers_iter_overflow hs 16 tail hgood hlen
  constructor
  · simp [parse_request, httparse_request_reqline, hover, Hp.bind]
  · simp [parse_response, httparse_response_statusline, hover, Hp.bind]

/-- Seventeen well-formed headers. -/
def hs17 : List (List Nat × List Nat) :=
  [(ascii "A1", ascii "x"), (ascii "A2", ascii "x"), (ascii "A3", ascii "x"),
   (ascii "A4", ascii "x"), (ascii "A5", ascii "x"), (ascii "A6", ascii "x"),
   (ascii "A7", ascii "x"), (ascii "A8", ascii "x"), (ascii "A9", ascii "x"),
   (ascii "B1", ascii "x"), (ascii "B2", ascii "x"), (ascii "B3", ascii "x"),
   (ascii "B4", ascii "x"), (ascii "B5", ascii "x"), (ascii "B6", ascii "x"),
   (ascii "B7", ascii "x"), (ascii "B8", ascii "x")]

/-- Witness for C9 amended at seventeen concrete headers. -/
theorem header_capacity_sixteen_witness :
    parse_request (ascii "GET / HTTP/1.1\r\n" ++ (renderHeaders hs17 ++ [])) =
      .err (.hp .tooManyHeaders) ∧
    parse_response (ascii "HTTP/1.1 200 OK\r\n" ++ (renderHeaders hs17 ++ [])) = .crash :=
  header_capacity_sixteen hs17 [] (by decide) (by decide)

/-- Claim C10: a Content-Length value that does not parse as a non-negative
integer is treated exactly as an absent header: both parse functions succeed
with no body set and no error. -/
theorem malformed_content_length_ignored
    (bufQ : List Nat) (outQ : HpReqOut) (restQ : List Nat) (hsQ : List (List Nat × List Nat))
    (hQ1 : httparse_request 16 bufQ = .complete outQ restQ)
    (hQ2 : buildHeadersStrict outQ.headers [] = some hsQ)
    (hQ3 : ∀ kv ∈ hsQ, kv.1.map lowerByte = ascii "content-length" → parseUsize kv.2 = none)
    (bufS : List Nat) (outS : HpRespOut) (restS : List Nat) (hsS : List (List Nat × List Nat))
    (hS1 : httparse_response 16 bufS = .complete outS restS)
    (hS2 : buildHeadersTry outS.headers [] = .ok hsS)
    (hS3 : ∀ kv ∈ hsS, kv.1.map lowerByte = ascii "content-length" → parseUsize kv.2 = none) :
    parse_request bufQ =
      .ok { method := outQ.method, path := outQ.path, version := natBytes outQ.version,
            headers := hsQ, body := none } ∧
    parse_response bufS =
      .ok { version := natBytes outS.version, code := outS.code, reason := some outS.reason,
            headers := hsS, body := none } := by
  constructor
  · simp [parse_request, hQ1, hQ2, get_content_length_none hsQ hQ3]
  · simp [parse_response, hS1, hS2, get_content_length_none hsS hS3]

/-- Witness for C10 at the values abc and -5. -/
theorem malformed_content_length_ignored_witness :
    parse_request (ascii "GET / HTTP/1.1\r\nContent-Length: abc\r\n\r\nhello") =
      .ok { method := ascii "GET", path := ascii "/", version := ascii "1",
            headers := [(ascii "Content-Length", ascii "abc")], body := none } ∧
    parse_response (ascii "HTTP/1.1 200 OK\r\nContent-Length: -5\r\n\r\nhello") =
      .ok { version := ascii "1", code := 200, reason := some (ascii "OK"),
            headers := [(ascii "Content-Length", ascii "-5")], body := none } :=
  malformed_content_length_ignored
    (ascii "GET / HTTP/1.1\r\nContent-Length: abc\r\n\r\nhello")
    { method := ascii "GET", path := ascii "/", version := 1,
      headers := [(ascii "Content-Length", ascii "abc")] }
    (ascii "hello") [(ascii "Content-Length", ascii "abc")]
    (by decide) (by rfl) (by decide)
    (ascii "HTTP/1.1 200 OK\r\nContent-Length: -5\r\n\r\nhello")
    { version := 1, code := 200, reason := ascii "OK",
      headers := [(ascii "Content-Length", ascii "-5")] }
    (ascii "hello") [(ascii "Content-Length", ascii "-5")]
    (by decide) (by rfl) (by decide)

/-- Claim C7 counterexample: a response declaring the encoding br with a
header name capitalization other than the exact Content-Encoding spelling is
not rejected; it parses successfully with a plainly decoded body, a silent
fallback. -/
theorem unknown_encoding_silent_fallback :
    parse_response (ascii "HTTP/1.1 404 NF\r\nCONTENT-ENCODING: br\r\ncontent-length: 1\r\n\r\nz") =
      .ok { version := ascii "1", code := 404, reason := some (ascii "NF"),
            headers := [(ascii "CONTENT-ENCODING", ascii "br"),
                        (ascii "content-length", ascii "1")],
            body := some (ascii "z") } := by
  decide

/-- Claim C7 amended: whenever the header map carries the exact-case key
Content-Encoding with a value other than gzip and a Content-Length framed
body, parse_response returns the hard error naming the unknown encoding. -/
theorem unknown_encoding_rejected
    (buf : List Nat) (out : HpRespOut) (rest : List Nat)
    (hs : List (List Nat × List Nat)) (n : Nat) (v : List Nat)
    (h1 : httparse_response 16 buf = .complete out rest)
    (h2 : buildHeadersTry out.headers [] = .ok hs)
    (h3 : get_content_length hs = some n)
    (h4 : n ≤ rest.length)
    (h5 : hmGet hs (ascii "Content-Encoding") = some v)
    (h6 : v ≠ ascii "gzip") :
    parse_response buf = .err (.msg (ascii "Unknown encoding " ++ v)) := by
  simp [parse_response, h1, h2, h3, h4, h5, h6]

/-- Witness for C7 amended at the encoding deflate. -/
theorem unknown_encoding_rejected_witness :
    parse_response
        (ascii "HTTP/1.1 500 E\r\nContent-Encoding: deflate\r\nContent-Length: 3\r\n\r\nabc") =
      .err (.msg (ascii "Unknown encoding " ++ ascii "deflate")) :=
  unknown_encoding_rejected
    (ascii "HTTP/1.1 500 E\r\nContent-Encoding: deflate\r\nContent-Length: 3\r\n\r\nabc")
    { version := 1, code := 500, reason := ascii "E",
      headers := [(ascii "Content-Encoding", ascii "deflate"), (ascii "Content-Length", ascii "3")] }
    (ascii "abc")
    [(ascii "Content-Encoding", ascii "deflate"), (ascii "Content-Length", ascii "3")]
    3 (ascii "deflate")
    (by decide) (by rfl) (by decide) (by decide) (by decide) (by decide)
